import Mathlib

/-!
Verification of the cereal-box-style prompt pipeline (server.py).

The server code is embedded shallowly: Python dicts become association
lists (`List (String × _)`), Python exceptions become `Except`/`Option`
results or an error component threaded next to the updated state, and
Python floats (the emphasis multipliers and style parameters) become
rationals.  Helper modules that are not part of the available sources
(`tools/parser.py`, `tools/transformer.py`, `tools/utils.py`) are
modelled from the specification where noted; everything else is a direct
translation of `server.py`.
-/

namespace CerealBox

set_option maxRecDepth 100000

/-! ### Generic helpers: dict lookup, Python string rendering, substring test -/

/-- Lookup in an association list, mirroring Python dict access
(first binding wins; dicts have unique keys). -/
def lookupA {α : Type} (l : List (String × α)) (k : String) : Option α :=
  (l.find? (fun p => p.1 == k)).map (fun p => p.2)

/-- Python repr of a string: wrapped in single quotes. -/
def pyStr (s : String) : String := "\x27" ++ s ++ "\x27"

/-- Python str of a list of strings, e.g. [\x27a\x27, \x27b\x27]. -/
def pyStrList (xs : List String) : String :=
  "[" ++ String.intercalate ", " (xs.map pyStr) ++ "]"

/-- Python str of a dict given its already-rendered entries. -/
def dictRepr (fields : List String) : String :=
  "\x7b" ++ String.intercalate ", " fields ++ "\x7d"

/-- Python str.lower, mapping each character to lower case. -/
def pyLower (s : String) : String := String.mk (s.data.map Char.toLower)

/-- Bool test: the first list is an initial segment of the second. -/
def leadsWith : List Char → List Char → Bool
  | [], _ => true
  | _ :: _, [] => false
  | a :: as, b :: bs => a == b && leadsWith as bs

/-- Bool test: the first list occurs contiguously inside the second. -/
def hasSubList (needle : List Char) : List Char → Bool
  | [] => needle.isEmpty
  | b :: bs => leadsWith needle (b :: bs) || hasSubList needle bs

/-- Python `needle in hay` on strings: contiguous substring test. -/
def substrB (needle hay : String) : Bool := hasSubList needle.data hay.data

/-! ### A stable sort

Python `sorted` with `reverse=True` is a stable sort under the reversed
comparisons: ties keep their original relative order.  We embed it as a
structurally recursive stable insertion sort: `x` is placed before the
first element `y` with `le x y`, so when `le` holds both ways the
earlier-listed element stays first. -/

/-- Insert `x` before the first element `y` of `l` with `le x y`. -/
def insertStable {α : Type} (le : α → α → Bool) (x : α) : List α → List α
  | [] => [x]
  | y :: ys => if le x y then x :: y :: ys else y :: insertStable le x ys

/-- Stable insertion sort with respect to `le`. -/
def sortStable {α : Type} (le : α → α → Bool) : List α → List α
  | [] => []
  | x :: xs => insertStable le x (sortStable le xs)

theorem mem_insertStable {α : Type} (le : α → α → Bool) (x : α) (l : List α) (a : α) :
    a ∈ insertStable le x l ↔ a = x ∨ a ∈ l := by
  induction l with
  | nil => simp [insertStable]
  | cons y ys ih =>
    cases h : le x y
    · simp only [insertStable, h, Bool.false_eq_true, if_false, List.mem_cons, ih]
      tauto
    · simp [insertStable, h, List.mem_cons]

theorem insertStable_perm {α : Type} (le : α → α → Bool) (x : α) (l : List α) :
    (insertStable le x l).Perm (x :: l) := by
  induction l with
  | nil => exact List.Perm.refl _
  | cons y ys ih =>
    simp only [insertStable]
    by_cases h : le x y
    · simp [h]
    · simp only [h, if_false]
      exact (ih.cons y).trans (List.Perm.swap x y ys)

theorem sortStable_perm {α : Type} (le : α → α → Bool) (l : List α) :
    (sortStable le l).Perm l := by
  induction l with
  | nil => exact List.Perm.refl _
  | cons x xs ih => exact (insertStable_perm le x _).trans (ih.cons x)

/-- Inserting an element that the order relation `S` places before every
element of an `S`-and-`le` consistent list keeps the list consistent:
each pair of the result is ordered by `le`, and whenever `le` also holds
backwards (a tie) the pair is ordered by `S`. -/
theorem insertStable_pairwise {α : Type} {le : α → α → Bool} {S : α → α → Prop}
    (htrans : ∀ a b c, le a b = true → le b c = true → le a c = true)
    (htot : ∀ a b, le a b = true ∨ le b a = true)
    (x : α) (l : List α)
    (hS : ∀ y ∈ l, S x y)
    (hl : l.Pairwise (fun a b => le a b = true ∧ (le b a = true → S a b))) :
    (insertStable le x l).Pairwise
      (fun a b => le a b = true ∧ (le b a = true → S a b)) := by
  induction l with
  | nil =>
    simp [insertStable]
  | cons y ys ih =>
    rw [List.pairwise_cons] at hl
    obtain ⟨hy, hys⟩ := hl
    simp only [insertStable]
    by_cases hxy : le x y
    · simp only [hxy, if_true]
      refine List.Pairwise.cons ?_ (List.Pairwise.cons hy hys)
      intro z hz
      rcases List.mem_cons.mp hz with rfl | hz2
      · exact ⟨hxy, fun _ => hS z (List.mem_cons_self _ _)⟩
      · exact ⟨htrans x y z hxy (hy z hz2).1,
          fun _ => hS z (List.mem_cons.mpr (Or.inr hz2))⟩
    · simp only [hxy, if_false]
      refine List.Pairwise.cons ?_
        (ih (fun z hz => hS z (List.mem_cons.mpr (Or.inr hz))) hys)
      intro z hz
      rcases (mem_insertStable le x ys z).mp hz with hz1 | hz2
      · subst hz1
        refine ⟨?_, fun hzx => absurd hzx hxy⟩
        rcases htot z y with h | h
        · exact absurd h hxy
        · exact h
      · exact hy z hz2

/-- The stable sort of a list whose original order is described by `S`
is `le`-sorted, with every `le`-tie resolved by the original order. -/
theorem sortStable_pairwise {α : Type} {le : α → α → Bool} {S : α → α → Prop}
    (htrans : ∀ a b c, le a b = true → le b c = true → le a c = true)
    (htot : ∀ a b, le a b = true ∨ le b a = true)
    (l : List α) (hl : l.Pairwise S) :
    (sortStable le l).Pairwise
      (fun a b => le a b = true ∧ (le b a = true → S a b)) := by
  induction l with
  | nil => simp [sortStable]
  | cons x xs ih =>
    rw [List.pairwise_cons] at hl
    exact insertStable_pairwise htrans htot x _
      (fun y hy => hl.1 y ((sortStable_perm le xs).mem_iff.mp hy))
      (ih hl.2)

theorem sortStable_sorted {α : Type} {le : α → α → Bool}
    (htrans : ∀ a b c, le a b = true → le b c = true → le a c = true)
    (htot : ∀ a b, le a b = true ∨ le b a = true)
    (l : List α) :
    (sortStable le l).Pairwise (fun a b => le a b = true) := by
  have hl : l.Pairwise (fun _ _ => True) :=
    List.pairwise_iff_getElem.mpr (fun _ _ _ _ _ => trivial)
  exact (sortStable_pairwise htrans htot l hl).imp (fun h => h.1)

theorem insertStable_map {α β : Type} (le : β → β → Bool) (f : α → β)
    (x : α) (l : List α) :
    (insertStable (fun a b => le (f a) (f b)) x l).map f =
      insertStable le (f x) (l.map f) := by
  induction l with
  | nil => rfl
  | cons y ys ih =>
    simp only [insertStable, List.map_cons]
    by_cases h : le (f x) (f y)
    · simp [h]
    · simp [h, ih]

theorem sortStable_map {α β : Type} (le : β → β → Bool) (f : α → β) (l : List α) :
    (sortStable (fun a b => le (f a) (f b)) l).map f = sortStable le (l.map f) := by
  induction l with
  | nil => rfl
  | cons x xs ih => simp only [sortStable, List.map_cons, insertStable_map, ih]

/-! ### Data model (spec section 3)

Modelled from the spec: the parser module that produces this structure is
not among the available sources; the record follows the ParsedComponents
data model of the specification. -/

structure Subject where
  type : Option String := none
  profession : Option String := none
  attributes : List String := []
  count : Option Nat := none
deriving DecidableEq

structure ActionC where
  verb : Option String := none
  object : Option String := none
  energy_level : Option String := none
deriving DecidableEq

structure Setting where
  type : Option String := none
  location : Option String := none
  atmosphere : Option String := none
  attributes : List String := []
deriving DecidableEq

structure Mood where
  emotion : Option String := none
  intensity : Option String := none
deriving DecidableEq

structure ParsedComponents where
  subject : Subject := {}
  action : ActionC := {}
  setting : Setting := {}
  objects : List String := []
  colors : List String := []
  mood : Mood := {}
  semantic_weights : List (String × Int) := []
deriving DecidableEq

/-- Render an optional scalar dict entry the way Python str does,
omitting the key when the parser left the field unset. -/
def optEntry (k : String) (v : Option String) : List String :=
  match v with
  | some s => [pyStr k ++ ": " ++ pyStr s]
  | none => []

/-- Render an optional integer dict entry. -/
def optNatEntry (k : String) (v : Option Nat) : List String :=
  match v with
  | some n => [pyStr k ++ ": " ++ toString n]
  | none => []

/-- Render a list-valued dict entry (collection fields are always present). -/
def listEntry (k : String) (xs : List String) : List String :=
  [pyStr k ++ ": " ++ pyStrList xs]

def Subject.render (s : Subject) : String :=
  dictRepr (optEntry "type" s.type ++ optEntry "profession" s.profession ++
    listEntry "attributes" s.attributes ++ optNatEntry "count" s.count)

def ActionC.render (a : ActionC) : String :=
  dictRepr (optEntry "verb" a.verb ++ optEntry "object" a.object ++
    optEntry "energy_level" a.energy_level)

def Setting.render (s : Setting) : String :=
  dictRepr (optEntry "type" s.type ++ optEntry "location" s.location ++
    optEntry "atmosphere" s.atmosphere ++ listEntry "attributes" s.attributes)

def Mood.render (m : Mood) : String :=
  dictRepr (optEntry "emotion" m.emotion ++ optEntry "intensity" m.intensity)

/-- Modelled from the spec: Python `str(parsed_components)` — the dict
rendering of the whole parsed structure, keys in the order the parser
builds them (subject, action, setting, objects, colors, mood,
semantic_weights). -/
def ParsedComponents.render (p : ParsedComponents) : String :=
  dictRepr
    [pyStr "subject" ++ ": " ++ p.subject.render,
     pyStr "action" ++ ": " ++ p.action.render,
     pyStr "setting" ++ ": " ++ p.setting.render,
     pyStr "objects" ++ ": " ++ pyStrList p.objects,
     pyStr "colors" ++ ": " ++ pyStrList p.colors,
     pyStr "mood" ++ ": " ++ p.mood.render,
     pyStr "semantic_weights" ++ ": " ++
       dictRepr (p.semantic_weights.map (fun q => pyStr q.1 ++ ": " ++ toString q.2))]

/-- A category record of the Rule Store (categories.json entry), fields
per the spec data model. -/
structure CategoryRules where
  description : String := ""
  visual_dna : List String := []
  ideal_subjects : List String := []
  compatible_moods : List String := []
  trigger_keywords : List String := []
  subject_rules : List (String × String) := []
  action_rules : List (String × String) := []
  setting_rules : List (String × String) := []
  color_rules : List (String × String) := []
  mandatory_markers : List String := []
  negative_prompts : List String := []
  typography_rule : Option String := none
deriving DecidableEq

/-- The categories table: category id paired with its rules, in
declaration order (Python dicts preserve insertion order). -/
abbrev Categories := List (String × CategoryRules)

/-! ### Category Scorer: `suggest_category` (server.py lines 97-163) -/

/-- One category score entry: the accumulated score and the list of
human-readable reasons, as built by the scoring loop. -/
def scoreCategory (parsed : ParsedComponents) (category : String)
    (rules : CategoryRules) : Nat × List String :=
  let score : Nat := 0
  let reasons : List String := []
  let sr :=
    match parsed.subject.type with
    | some t =>
      if t ∈ rules.ideal_subjects then
        (score + 3,
         reasons ++ ["Subject type \x27" ++ t ++ "\x27 is ideal for this category"])
      else (score, reasons)
    | none => (score, reasons)
  let score := sr.1
  let reasons := sr.2
  let mr :=
    match parsed.mood.emotion with
    | some m =>
      if m ∈ rules.compatible_moods then
        (score + 2, reasons ++ ["Mood \x27" ++ m ++ "\x27 aligns with category aesthetic"])
      else (score, reasons)
    | none => (score, reasons)
  let score := mr.1
  let reasons := mr.2
  let action_energy := parsed.action.energy_level.getD "medium"
  let er :=
    if (category = "kid_chaos" ∨ category = "mascot_theater") ∧
        (action_energy = "high" ∨ action_energy = "extreme") then
      (score + 2, reasons ++ ["High energy matches dynamic category"])
    else if (category = "health_halo" ∨ category = "premium_disruptor") ∧
        action_energy = "low" then
      (score + 2, reasons ++ ["Low energy suits minimalist aesthetic"])
    else (score, reasons)
  let score := er.1
  let reasons := er.2
  let prompt_text := pyLower parsed.render
  let score := score + rules.trigger_keywords.countP (fun k => substrB k prompt_text)
  (score, reasons)

/-- The scores dict of the scoring loop, in category declaration order. -/
def scoredList (CATEGORIES : Categories) (p : ParsedComponents) :
    List (String × (Nat × List String)) :=
  CATEGORIES.map (fun c => (c.1, scoreCategory p c.1 c.2))

/-- Comparison used by `sorted(..., key=score, reverse=True)`: an entry
may come before another when its score is at least as large, which
together with sort stability keeps ties in declaration order. -/
def scoreLE (a b : String × (Nat × List String)) : Bool :=
  decide (b.2.1 ≤ a.2.1)

/-- The ranked list of the scoring tool (descending score, stable). -/
def rankedList (CATEGORIES : Categories) (p : ParsedComponents) :
    List (String × (Nat × List String)) :=
  sortStable scoreLE (scoredList CATEGORIES p)

/-- The same ranking computed on index-decorated entries, used to state
the tie-break property: the comparison still looks only at scores, so
the result carries each entry together with its declaration index. -/
def rankedIdx (CATEGORIES : Categories) (p : ParsedComponents) :
    List (Nat × (String × (Nat × List String))) :=
  sortStable (fun a b => scoreLE a.2 b.2) (scoredList CATEGORIES p).enum

structure Suggestion where
  primary_suggestion : String
  alternatives : List String
  scores : List (String × Nat)
  reasoning : String
deriving DecidableEq

/-- `suggest_category` (server.py lines 97-163).  `none` corresponds to
the IndexError Python would raise on an empty categories table. -/
def suggest_category (CATEGORIES : Categories) (p : ParsedComponents) :
    Option Suggestion :=
  match rankedList CATEGORIES p with
  | [] => none
  | top :: rest =>
    some
      { primary_suggestion := top.1
        alternatives := (rest.take 2).map (fun c => c.1)
        scores := (scoredList CATEGORIES p).map (fun c => (c.1, c.2.1))
        reasoning :=
          if top.2.2.isEmpty then "General compatibility"
          else String.intercalate "; " top.2.2 }

/-! ### Transformation Engine: `apply_transformations` (server.py lines 196-244) -/

/-- Style parameters (spec section 4.4): every option is optional and
unrecognized keys of the Python dict are ignored, so only the recognized
options are carried.  The `name` key of the variant preset dicts rides
along like any other ignored-by-transform key. -/
structure StyleParams where
  name : Option String := none
  energy_level : Option ℚ := none
  color_saturation : Option String := none
  composition_density : Option ℚ := none
  era : Option String := none
  metallic_accent : Option String := none
  outline_weight : Option String := none
deriving DecidableEq

/-- Transformed components (spec section 3). -/
structure TransformedComponents where
  subject : String
  action : String
  setting : String
  colors : String
  effects : String
  style_markers : List String
  typography : Option String
deriving DecidableEq

/-- The shared transformation maps table; only threaded through, the
modelled engine below derives everything from the category rules. -/
abbrev TransformationMaps := List (String × List (String × String))

/-- Modelled from the spec: `apply_category_transformation` from
`tools/transformer.py` is not among the available sources.  Per spec
section 4.4: each of subject/action/setting/colors is looked up in the
category rule table keyed by the parsed discriminant (subject.type,
action.energy_level, setting.type, color token), falling back to a
category-neutral generic phrase built from the raw parsed value;
effects and style_markers derive from the static visual_dna plus a
params-driven motion marker above an energy threshold; typography is
present only when the category defines a typography rule. -/
def apply_category_transformation (parsed : ParsedComponents)
    (rules : CategoryRules) (_maps : TransformationMaps)
    (params : StyleParams) : TransformedComponents :=
  let ruleOr := fun (table : List (String × String)) (key : Option String)
      (field : String) =>
    match key.bind (lookupA table) with
    | some txt => txt
    | none => "generic " ++ field ++ " of " ++ (key.getD "unspecified")
  let colorTexts := parsed.colors.map (fun c =>
    match lookupA rules.color_rules c with
    | some txt => txt
    | none => c)
  { subject := ruleOr rules.subject_rules parsed.subject.type "subject"
    action := ruleOr rules.action_rules parsed.action.energy_level "action"
    setting := ruleOr rules.setting_rules parsed.setting.type "setting"
    colors :=
      if colorTexts.isEmpty then "generic colors"
      else String.intercalate ", " colorTexts
    effects :=
      String.intercalate ", " rules.visual_dna ++
        (if (params.energy_level.getD 1) > (4 / 5 : ℚ) then ", motion effects" else "")
    style_markers := rules.visual_dna ++ rules.mandatory_markers
    typography := rules.typography_rule }

/-- `apply_transformations` (server.py lines 196-244): validates the
category key, with `style_params or \x7b\x7d` defaulting the params, then
delegates to the transformation engine.  The ValueError raised on an
unknown category becomes the error branch, carrying the exact message
the code formats. -/
def apply_transformations (CATEGORIES : Categories) (MAPS : TransformationMaps)
    (parsed : ParsedComponents) (category : String)
    (style_params : Option StyleParams) : Except String TransformedComponents :=
  match lookupA CATEGORIES category with
  | none => .error ("Unknown category: " ++ category)
  | some rules =>
    .ok (apply_category_transformation parsed rules MAPS (style_params.getD {}))

/-! ### Skeleton Assembler: `build_prompt_skeleton` (server.py lines 247-317) -/

/-- A template record (spec section 3): the ordered sequence of
component names defining default section ordering. -/
structure Template where
  emphasis_order : List String
deriving DecidableEq

abbrev Templates := List (String × Template)

structure Metadata where
  category : String
  estimated_tokens : Nat
  ready_for_synthesis : Bool
  user_modifications : Option (List String)
deriving DecidableEq

structure Skeleton where
  sections : List (String × String)
  emphasis : List (String × ℚ)
  template : Template
  negative_prompt : String
  metadata : Metadata
deriving DecidableEq

/-- The transformed-components dict as passed to section ordering, keys
in construction order; the optional typography entry is present only
when populated, and the marker list rides along as its rendered text. -/
def TransformedComponents.fields (t : TransformedComponents) :
    List (String × String) :=
  [("subject", t.subject), ("action", t.action), ("setting", t.setting),
   ("colors", t.colors), ("effects", t.effects),
   ("style_markers", pyStrList t.style_markers)] ++
  (match t.typography with
   | some ty => [("typography", ty)]
   | none => [])

/-- Modelled from the spec: `order_by_importance` from `tools/utils.py`
is not among the available sources.  Per spec section 4.5, section
ordering is the template emphasis_order filtered to the fields actually
present in the transformed components; an absent field is skipped. -/
def order_by_importance (transformed : List (String × String))
    (_weights : List (String × Int)) (emphasis_order : List String) :
    List (String × String) :=
  emphasis_order.filterMap (fun name =>
    (lookupA transformed name).map (fun v => (name, v)))

/-- Modelled from the spec: `generate_negative_prompt` from
`tools/utils.py` is not among the available sources.  Per spec section
4.5, the negative prompt is the category negative_prompts list joined
into one string in declared order. -/
def generate_negative_prompt (category : String) (CATEGORIES : Categories) :
    String :=
  String.intercalate ", "
    (((lookupA CATEGORIES category).map (fun r => r.negative_prompts)).getD [])

/-- The emphasis banding of the assembler loop (server.py lines 288-297):
weight above 60 gives 1.3, above 40 gives 1.15, above 20 gives 1.0,
otherwise 0.85. -/
def emphasisBand (weight : Int) : ℚ :=
  if weight > 60 then 1.3
  else if weight > 40 then 1.15
  else if weight > 20 then 1.0
  else 0.85

/-- The emphasis dict built by the assembler loop over the
semantic_weights items (unique keys, insertion order preserved). -/
def buildEmphasis (semantic_weights : List (String × Int)) : List (String × ℚ) :=
  semantic_weights.map (fun cw => (cw.1, emphasisBand cw.2))

/-- The assembler body once the template has been fetched. -/
def assemble_with_template (CATEGORIES : Categories) (template : Template)
    (transformed : TransformedComponents) (category : String)
    (semantic_weights : List (String × Int)) : Skeleton :=
  let ordered_sections :=
    order_by_importance transformed.fields semantic_weights template.emphasis_order
  let emphasis := buildEmphasis semantic_weights
  let negative := generate_negative_prompt category CATEGORIES
  let estimated_tokens := (ordered_sections.map (fun p => p.2.length)).sum / 4
  { sections := ordered_sections
    emphasis := emphasis
    template := template
    negative_prompt := negative
    metadata :=
      { category := category
        estimated_tokens := estimated_tokens
        ready_for_synthesis := true
        user_modifications := none } }

/-- `build_prompt_skeleton` (server.py lines 247-317).  The Python
`TEMPLATES[category]` lookup raises KeyError when the template is
missing, embedded as the `none` branch.  The created metadata has no
user_modifications key, which the record encodes as `none`. -/
def build_prompt_skeleton (CATEGORIES : Categories) (TEMPLATES : Templates)
    (transformed : TransformedComponents) (category : String)
    (semantic_weights : List (String × Int)) : Option Skeleton :=
  (lookupA TEMPLATES category).map (fun template =>
    assemble_with_template CATEGORIES template transformed category semantic_weights)

/-! ### Refiner: `refine_component` (server.py lines 320-357)

The Python function mutates the caller-held skeleton in place and
returns it, raising before any mutation when the component is unknown.
The embedding returns the final state of the caller-held skeleton
together with an optional error message: on the error path the state is
the untouched input. -/

def refine_component (skeleton : Skeleton) (component_name : String)
    (new_value : String) : Skeleton × Option String :=
  if (lookupA skeleton.sections component_name).isSome then
    let sections := skeleton.sections.map (fun p =>
      if p.1 = component_name then (p.1, new_value) else p)
    let mods := skeleton.metadata.user_modifications.getD [] ++ [component_name]
    let estimated := (sections.map (fun p => p.2.length)).sum / 4
    ({ skeleton with
        sections := sections
        metadata :=
          { skeleton.metadata with
              user_modifications := some mods
              estimated_tokens := estimated } }, none)
  else
    (skeleton,
     some ("Unknown component: " ++ component_name ++ ". Available: " ++
       pyStrList (skeleton.sections.map (fun p => p.1))))

/-! ### Variant Generator: `generate_variants` (server.py lines 360-450) -/

structure Variant where
  name : String
  style_params : StyleParams
  skeleton : Skeleton
deriving DecidableEq

/-- The fixed ordered preset table (server.py lines 393-425). -/
def param_sets : List StyleParams :=
  [{ name := some "Subtle", energy_level := some 0.5,
     color_saturation := some "pastel", composition_density := some 0.4 },
   { name := some "Balanced", energy_level := some 0.75,
     color_saturation := some "bright", composition_density := some 0.7 },
   { name := some "Intense", energy_level := some 1.0,
     color_saturation := some "neon", composition_density := some 1.0 },
   { name := some "Vintage", energy_level := some 0.6,
     color_saturation := some "muted", composition_density := some 0.5,
     era := some "1970s" },
   { name := some "Dramatic", energy_level := some 0.9,
     color_saturation := some "bold", composition_density := some 0.8 }]

/-- The display name of the i-th variant (zero-based index). -/
def mkVariantName (i : Nat) (params : StyleParams) : String :=
  "Variant " ++ toString (i + 1) ++ " (" ++ params.name.getD "" ++ ")"

/-- The loop body of `generate_variants`: transform with the preset
params, assemble with the parsed semantic_weights, and wrap with the
variant display name; errors raised along the way (unknown category,
missing template) propagate. -/
def variantStep (CATEGORIES : Categories) (MAPS : TransformationMaps)
    (TEMPLATES : Templates) (parsed : ParsedComponents) (category : String)
    (ip : Nat × StyleParams) : Except String Variant :=
  match apply_transformations CATEGORIES MAPS parsed category (some ip.2) with
  | .error e => .error e
  | .ok transformed =>
    match build_prompt_skeleton CATEGORIES TEMPLATES transformed category
        parsed.semantic_weights with
    | none => .error ("KeyError: " ++ category)
    | some skeleton =>
      .ok { name := mkVariantName ip.1 ip.2
            style_params := ip.2
            skeleton := skeleton }

/-- `generate_variants` (server.py lines 360-450): validates the count,
then for each of the first `count` presets, paired with its index,
re-runs the transformation and the assembler. -/
def generate_variants (CATEGORIES : Categories) (MAPS : TransformationMaps)
    (TEMPLATES : Templates) (parsed : ParsedComponents) (category : String)
    (count : Int) : Except String (List Variant) :=
  if count < 1 ∨ count > 5 then .error "Count must be between 1 and 5"
  else
    (param_sets.take count.toNat).enum.mapM
      (variantStep CATEGORIES MAPS TEMPLATES parsed category)

/-! ### Theorems about the Category Scorer -/

set_option maxHeartbeats 1600000 in
/-- C1: for every parsed component set and every category entry of the
Rule Store (whose trigger keywords, a set in the data model, carry no
duplicates), the suggestion score equals the sum of four independent
contributions: +3 when parsed.subject.type is among ideal_subjects, +2
when parsed.mood.emotion is among compatible_moods, +2 when the category
is one of the energetic pair (kid_chaos, mascot_theater) with
high/extreme energy or one of the minimalist pair (health_halo,
premium_disruptor) with low energy, and +1 per distinct trigger keyword
occurring as a substring of the lower-cased string rendering of the
whole parsed structure (each distinct keyword counted once); all four
conditions contribute regardless of the others. -/
theorem C1_score_decomposition (p : ParsedComponents) (cat : String)
    (rules : CategoryRules) (h : rules.trigger_keywords.Nodup) :
    (scoreCategory p cat rules).1 =
      (match p.subject.type with
       | some t => if t ∈ rules.ideal_subjects then 3 else 0
       | none => 0)
      + (match p.mood.emotion with
         | some m => if m ∈ rules.compatible_moods then 2 else 0
         | none => 0)
      + (if ((cat = "kid_chaos" ∨ cat = "mascot_theater") ∧
              (p.action.energy_level.getD "medium" = "high" ∨
               p.action.energy_level.getD "medium" = "extreme"))
            ∨ ((cat = "health_halo" ∨ cat = "premium_disruptor") ∧
               p.action.energy_level.getD "medium" = "low")
          then 2 else 0)
      + rules.trigger_keywords.dedup.countP
          (fun k => substrB k (pyLower p.render)) := by
  rw [List.Nodup.dedup h]
  have fst_ite : ∀ (c : Prop) (inst : Decidable c) (a b : Nat × List String),
      (ite c a b).1 = ite c a.1 b.1 := by
    intro c inst a b
    by_cases hc : c <;> simp [hc]
  simp only [scoreCategory, fst_ite]
  cases hs : p.subject.type <;> cases hm : p.mood.emotion <;>
    simp <;> (try split_ifs) <;> first | omega | tauto

/-- C10: when the parsed action carries no energy_level, the scorer
falls back to the default value medium, so no category receives the +2
energy bonus and every score reduces to the subject, mood and keyword
contributions alone. -/
theorem C10_absent_energy_no_bonus (p : ParsedComponents) (cat : String)
    (rules : CategoryRules) (h : p.action.energy_level = none) :
    p.action.energy_level.getD "medium" = "medium" ∧
    (scoreCategory p cat rules).1 =
      (match p.subject.type with
       | some t => if t ∈ rules.ideal_subjects then 3 else 0
       | none => 0)
      + (match p.mood.emotion with
         | some m => if m ∈ rules.compatible_moods then 2 else 0
         | none => 0)
      + rules.trigger_keywords.countP
          (fun k => substrB k (pyLower p.render)) := by
  refine ⟨by rw [h]; rfl, ?_⟩
  have fst_ite : ∀ (c : Prop) (inst : Decidable c) (a b : Nat × List String),
      (ite c a b).1 = ite c a.1 b.1 := by
    intro c inst a b
    by_cases hc : c <;> simp [hc]
  simp only [scoreCategory, h, fst_ite]
  cases hs : p.subject.type <;> cases hm : p.mood.emotion <;>
    simp <;> (try split_ifs) <;> first | omega | tauto

/-- C3: `suggest_category` ranks categories in descending order of total
score with ties resolved by Rule-Store declaration order (the sort is
stable: on the index-decorated ranking, any tie has strictly increasing
declaration indices), returns the top category id as primary and the
next two as alternatives, returns the winning justifications joined by
a semicolon-space separator or the fixed fallback General compatibility
when the winner accrued no reasons, and repeated calls on the same input
agree. -/
theorem C3_ranking (CATEGORIES : Categories) (p : ParsedComponents)
    (h : CATEGORIES ≠ []) :
    ∃ top rest,
      rankedList CATEGORIES p = top :: rest ∧
      suggest_category CATEGORIES p =
        some { primary_suggestion := top.1
               alternatives := (rest.take 2).map (fun c => c.1)
               scores := (scoredList CATEGORIES p).map (fun c => (c.1, c.2.1))
               reasoning :=
                 if top.2.2.isEmpty then "General compatibility"
                 else String.intercalate "; " top.2.2 } ∧
      (rankedList CATEGORIES p).Pairwise (fun a b => b.2.1 ≤ a.2.1) ∧
      (rankedIdx CATEGORIES p).map Prod.snd = rankedList CATEGORIES p ∧
      (rankedIdx CATEGORIES p).Pairwise
        (fun a b => b.2.2.1 ≤ a.2.2.1 ∧ (a.2.2.1 ≤ b.2.2.1 → a.1 < b.1)) ∧
      suggest_category CATEGORIES p = suggest_category CATEGORIES p := by
  have htrans : ∀ a b c : String × (Nat × List String),
      scoreLE a b = true → scoreLE b c = true → scoreLE a c = true := by
    intro a b c hab hbc
    simp only [scoreLE, decide_eq_true_eq] at hab hbc ⊢
    omega
  have htot : ∀ a b : String × (Nat × List String),
      scoreLE a b = true ∨ scoreLE b a = true := by
    intro a b
    simp only [scoreLE, decide_eq_true_eq]
    omega
  have htransI : ∀ a b c : Nat × (String × (Nat × List String)),
      scoreLE a.2 b.2 = true → scoreLE b.2 c.2 = true → scoreLE a.2 c.2 = true :=
    fun a b c hab hbc => htrans a.2 b.2 c.2 hab hbc
  have htotI : ∀ a b : Nat × (String × (Nat × List String)),
      scoreLE a.2 b.2 = true ∨ scoreLE b.2 a.2 = true :=
    fun a b => htot a.2 b.2
  have hmap : (rankedIdx CATEGORIES p).map Prod.snd = rankedList CATEGORIES p := by
    unfold rankedIdx rankedList
    rw [sortStable_map scoreLE Prod.snd, List.enum_map_snd]
  have hsorted2 : (rankedList CATEGORIES p).Pairwise (fun a b => b.2.1 ≤ a.2.1) :=
    (sortStable_sorted htrans htot (scoredList CATEGORIES p)).imp
      (fun hab => by simpa [scoreLE, decide_eq_true_eq] using hab)
  have henum : (scoredList CATEGORIES p).enum.Pairwise (fun a b => a.1 < b.1) := by
    have h1 : ((scoredList CATEGORIES p).enum.map Prod.fst).Pairwise Nat.lt := by
      rw [List.enum_map_fst]
      exact List.pairwise_lt_range _
    exact List.pairwise_map.mp h1
  have hlex2 : (rankedIdx CATEGORIES p).Pairwise
      (fun a b => b.2.2.1 ≤ a.2.2.1 ∧ (a.2.2.1 ≤ b.2.2.1 → a.1 < b.1)) := by
    refine (sortStable_pairwise (S := fun a b => a.1 < b.1) htransI htotI _ henum).imp ?_
    intro a b hab
    refine ⟨?_, fun hle => hab.2 ?_⟩
    · have h1 := hab.1
      simpa [scoreLE, decide_eq_true_eq] using h1
    · simp only [scoreLE, decide_eq_true_eq]
      exact hle
  have hne : rankedList CATEGORIES p ≠ [] := by
    intro hnil
    have hlen := (sortStable_perm scoreLE (scoredList CATEGORIES p)).length_eq
    rw [show sortStable scoreLE (scoredList CATEGORIES p) = rankedList CATEGORIES p
      from rfl, hnil] at hlen
    simp only [List.length_nil, scoredList, List.length_map] at hlen
    exact h (List.eq_nil_of_length_eq_zero hlen.symm)
  obtain ⟨top, rest, hr⟩ := List.exists_cons_of_ne_nil hne
  refine ⟨top, rest, hr, ?_, hsorted2, hmap, hlex2, rfl⟩
  simp [suggest_category, hr]

/-! ### Helper lemmas about lookup, replacement and the variant loop -/

theorem lookupA_cons {α : Type} (x : String × α) (xs : List (String × α))
    (k : String) :
    lookupA (x :: xs) k = if x.1 = k then some x.2 else lookupA xs k := by
  by_cases h : x.1 = k <;> simp [lookupA, List.find?_cons, h]

theorem lookupA_replace_self (l : List (String × String)) (name v : String)
    (h : (lookupA l name).isSome) :
    lookupA (l.map (fun p => if p.1 = name then (p.1, v) else p)) name = some v := by
  induction l with
  | nil => simp [lookupA] at h
  | cons a l ih =>
    rw [List.map_cons, lookupA_cons]
    rw [lookupA_cons] at h
    by_cases ha : a.1 = name
    · rw [if_pos ha, if_pos (show ((a.1, v) : String × String).1 = name from ha)]
    · rw [if_neg ha] at h
      rw [if_neg ha, if_neg (show ¬ (a : String × String).1 = name from ha)]
      exact ih h

theorem lookupA_replace_ne (l : List (String × String)) (name v k : String)
    (hk : k ≠ name) :
    lookupA (l.map (fun p => if p.1 = name then (p.1, v) else p)) k =
      lookupA l k := by
  induction l with
  | nil => rfl
  | cons a l ih =>
    rw [List.map_cons, lookupA_cons, lookupA_cons]
    by_cases ha : a.1 = name
    · have hak : ¬ a.1 = k := fun hh => hk (hh.symm.trans ha)
      rw [if_pos ha, if_neg (show ¬ ((a.1, v) : String × String).1 = k from hak),
        if_neg hak]
      exact ih
    · rw [if_neg ha]
      by_cases hae : a.1 = k
      · rw [if_pos hae, if_pos hae]
      · rw [if_neg hae, if_neg hae]
        exact ih

theorem map_fst_replace (l : List (String × String)) (name v : String) :
    (l.map (fun p => if p.1 = name then (p.1, v) else p)).map (fun p => p.1) =
      l.map (fun p => p.1) := by
  induction l with
  | nil => rfl
  | cons a l ih =>
    by_cases ha : a.1 = name <;> simp [ha, ih]

theorem buildEmphasis_map_fst (w : List (String × Int)) :
    (buildEmphasis w).map Prod.fst = w.map Prod.fst := by
  induction w with
  | nil => rfl
  | cons a l ih =>
    simp only [buildEmphasis, List.map_cons] at ih ⊢
    rw [ih]

theorem mapM_except_ok {α β : Type} (g : α → β) (l : List α) :
    (l.mapM (fun x => Except.ok (g x)) : Except String (List β)) =
      Except.ok (l.map g) := by
  induction l with
  | nil => rfl
  | cons a l ih =>
    rw [List.mapM_cons, ih]
    rfl

theorem variantStep_ok (CATEGORIES : Categories) (MAPS : TransformationMaps)
    (TEMPLATES : Templates) (parsed : ParsedComponents) (category : String)
    (rules : CategoryRules) (tpl : Template)
    (hr : lookupA CATEGORIES category = some rules)
    (ht : lookupA TEMPLATES category = some tpl)
    (ip : Nat × StyleParams) :
    variantStep CATEGORIES MAPS TEMPLATES parsed category ip =
      Except.ok
        { name := mkVariantName ip.1 ip.2
          style_params := ip.2
          skeleton := assemble_with_template CATEGORIES tpl
            (apply_category_transformation parsed rules MAPS ip.2) category
            parsed.semantic_weights } := by
  simp [variantStep, apply_transformations, hr, build_prompt_skeleton, ht]

/-! ### Theorems about the Skeleton Assembler, Refiner and Variants -/

/-- C2: the emphasis multiplier assigned per component is exactly 1.3
for weight above 60, 1.15 for weight above 40 and at most 60, 1.0 for
weight above 20 and at most 40, and 0.85 for weight at most 20; in
particular weight 60 gives 1.15 and weight 40 gives 1.0; and the
assembled skeleton emphasis assigns each weighted component its band
value. -/
theorem C2_emphasis_banding (weights : List (String × Int)) (c : String)
    (w : Int) (hmem : (c, w) ∈ weights) :
    (c, emphasisBand w) ∈ buildEmphasis weights
    ∧ (60 < w → emphasisBand w = 1.3)
    ∧ (40 < w → w ≤ 60 → emphasisBand w = 1.15)
    ∧ (20 < w → w ≤ 40 → emphasisBand w = 1.0)
    ∧ (w ≤ 20 → emphasisBand w = 0.85)
    ∧ emphasisBand 60 = 1.15
    ∧ emphasisBand 40 = 1.0
    ∧ (∀ (CATEGORIES : Categories) (TEMPLATES : Templates)
        (t : TransformedComponents) (cat : String) (tpl : Template),
        lookupA TEMPLATES cat = some tpl →
        build_prompt_skeleton CATEGORIES TEMPLATES t cat weights =
          some (assemble_with_template CATEGORIES tpl t cat weights)
        ∧ (assemble_with_template CATEGORIES tpl t cat weights).emphasis =
            buildEmphasis weights) := by
  refine ⟨List.mem_map.mpr ⟨(c, w), hmem, rfl⟩, ?_, ?_, ?_, ?_, ?_, ?_, ?_⟩
  · intro h1
    simp only [emphasisBand]
    rw [if_pos (by omega)]
  · intro h1 h2
    simp only [emphasisBand]
    rw [if_neg (by omega), if_pos (by omega)]
  · intro h1 h2
    simp only [emphasisBand]
    rw [if_neg (by omega), if_neg (by omega), if_pos (by omega)]
  · intro h1
    simp only [emphasisBand]
    rw [if_neg (by omega), if_neg (by omega), if_neg (by omega)]
  · simp only [emphasisBand]
    norm_num
  · simp only [emphasisBand]
    norm_num
  · intro CATS TPLS t cat tpl htpl
    exact ⟨by simp [build_prompt_skeleton, htpl], rfl⟩

/-- C9: the emphasis mapping of every skeleton returned by the
assembler has exactly the keys of the semantic_weights argument
(whether or not those names correspond to sections), and every emphasis
value is one of 0.85, 1.0, 1.15, 1.3. -/
theorem C9_emphasis_keys_and_range (CATEGORIES : Categories)
    (TEMPLATES : Templates) (t : TransformedComponents) (cat : String)
    (weights : List (String × Int)) (tpl : Template)
    (htpl : lookupA TEMPLATES cat = some tpl) :
    ∃ sk, build_prompt_skeleton CATEGORIES TEMPLATES t cat weights = some sk
    ∧ sk.emphasis.map Prod.fst = weights.map Prod.fst
    ∧ ∀ pr ∈ sk.emphasis,
        pr.2 = 0.85 ∨ pr.2 = 1.0 ∨ pr.2 = 1.15 ∨ pr.2 = 1.3 := by
  refine ⟨assemble_with_template CATEGORIES tpl t cat weights,
    by simp [build_prompt_skeleton, htpl], buildEmphasis_map_fst weights, ?_⟩
  intro pr hpr
  obtain ⟨cw, hcw, hpr2⟩ := List.mem_map.mp hpr
  rw [← hpr2]
  show emphasisBand cw.2 = 0.85 ∨ emphasisBand cw.2 = 1.0 ∨
    emphasisBand cw.2 = 1.15 ∨ emphasisBand cw.2 = 1.3
  simp only [emphasisBand]
  split_ifs
  · exact Or.inr (Or.inr (Or.inr rfl))
  · exact Or.inr (Or.inr (Or.inl rfl))
  · exact Or.inr (Or.inl rfl)
  · exact Or.inl rfl

/-- C8 (amended): every skeleton returned by the assembler has no
user_modifications key in its metadata (the key is created only by the
first refinement, which then records exactly that one component), and
refining zero components trivially leaves sections, negative_prompt and
emphasis unchanged. -/
theorem C8_user_modifications_created_on_first_refine (CATEGORIES : Categories)
    (TEMPLATES : Templates) (t : TransformedComponents) (cat : String)
    (weights : List (String × Int)) (tpl : Template)
    (htpl : lookupA TEMPLATES cat = some tpl) :
    ∃ sk, build_prompt_skeleton CATEGORIES TEMPLATES t cat weights = some sk
    ∧ sk.metadata.user_modifications = none
    ∧ ∀ name v, (lookupA sk.sections name).isSome →
        (refine_component sk name v).1.metadata.user_modifications =
          some [name] := by
  refine ⟨assemble_with_template CATEGORIES tpl t cat weights,
    by simp [build_prompt_skeleton, htpl], rfl, ?_⟩
  intro name v hsome
  simp [refine_component, hsome]
  rfl

/-- C4 (amended): transforming with a category id absent from the Rule
Store fails with the ValueError message the code formats — which names
the offending id but does not list the valid ids — and returns no
TransformedComponents at all. -/
theorem C4_unknown_category_error (CATEGORIES : Categories)
    (MAPS : TransformationMaps) (parsed : ParsedComponents) (category : String)
    (style_params : Option StyleParams)
    (h : lookupA CATEGORIES category = none) :
    apply_transformations CATEGORIES MAPS parsed category style_params =
      .error ("Unknown category: " ++ category) := by
  simp [apply_transformations, h]

/-- C5: refining a component name absent from the skeleton sections
fails with the unknown-component error, whose message carries the
rendered list of valid section names, and returns the input skeleton
completely unchanged (the Python code raises before any mutation). -/
theorem C5_refine_unknown_component (sk : Skeleton) (name v : String)
    (h : lookupA sk.sections name = none) :
    refine_component sk name v =
      (sk, some ("Unknown component: " ++ name ++ ". Available: " ++
        pyStrList (sk.sections.map (fun p => p.1)))) := by
  simp [refine_component, h]

/-- C6: refining a component name present in the sections succeeds,
overwrites exactly that section (all other sections and the key set are
unchanged), appends the name to user_modifications (starting from the
empty history when the key is absent, duplicates allowed), recomputes
estimated_tokens as the summed character lengths of the current section
texts integer-divided by 4, and leaves emphasis and template untouched. -/
theorem C6_refine_success (sk : Skeleton) (name v : String)
    (h : (lookupA sk.sections name).isSome) :
    (refine_component sk name v).2 = none
    ∧ lookupA (refine_component sk name v).1.sections name = some v
    ∧ (∀ k, k ≠ name →
        lookupA (refine_component sk name v).1.sections k =
          lookupA sk.sections k)
    ∧ (refine_component sk name v).1.sections.map (fun p => p.1) =
        sk.sections.map (fun p => p.1)
    ∧ (refine_component sk name v).1.metadata.user_modifications =
        some (sk.metadata.user_modifications.getD [] ++ [name])
    ∧ (refine_component sk name v).1.metadata.estimated_tokens =
        (((refine_component sk name v).1.sections).map
          (fun p => p.2.length)).sum / 4
    ∧ (refine_component sk name v).1.emphasis = sk.emphasis
    ∧ (refine_component sk name v).1.template = sk.template := by
  have hstep : refine_component sk name v =
      ({ sk with
          sections := sk.sections.map (fun p =>
            if p.1 = name then (p.1, v) else p)
          metadata :=
            { sk.metadata with
                user_modifications :=
                  some (sk.metadata.user_modifications.getD [] ++ [name])
                estimated_tokens :=
                  ((sk.sections.map (fun p =>
                    if p.1 = name then (p.1, v) else p)).map
                    (fun p => p.2.length)).sum / 4 } }, none) := by
    unfold refine_component
    rw [if_pos h]
  rw [hstep]
  exact ⟨rfl, lookupA_replace_self sk.sections name v h,
    fun k hk => lookupA_replace_ne sk.sections name v k hk,
    map_fst_replace sk.sections name v, rfl, rfl, rfl, rfl⟩

/-- C7: variant generation rejects counts outside [1,5] with the range
error; for a count in [1,5] over a category present in both the Rule
Store and the template table it returns exactly count entries, the i-th
named after the i-th entry of the fixed ordered preset table (Subtle,
Balanced, Intense, Vintage, Dramatic), each produced by independently
re-running the transformation and the assembler with the parsed
semantic_weights as the weight source. -/
theorem C7_variants (CATEGORIES : Categories) (MAPS : TransformationMaps)
    (TEMPLATES : Templates) (parsed : ParsedComponents) (category : String)
    (count : Int) (rules : CategoryRules) (tpl : Template)
    (hr : lookupA CATEGORIES category = some rules)
    (ht : lookupA TEMPLATES category = some tpl)
    (hc1 : 1 ≤ count) (hc5 : count ≤ 5) :
    (∀ c : Int, (c < 1 ∨ c > 5) →
      generate_variants CATEGORIES MAPS TEMPLATES parsed category c =
        .error "Count must be between 1 and 5")
    ∧ ∃ vs, generate_variants CATEGORIES MAPS TEMPLATES parsed category count =
        .ok vs
      ∧ vs = (param_sets.take count.toNat).enum.map (fun ip =>
          { name := mkVariantName ip.1 ip.2
            style_params := ip.2
            skeleton := assemble_with_template CATEGORIES tpl
              (apply_category_transformation parsed rules MAPS ip.2) category
              parsed.semantic_weights })
      ∧ vs.length = count.toNat := by
  constructor
  · intro c hc
    simp [generate_variants, hc]
  · refine ⟨_, ?_, rfl, ?_⟩
    · unfold generate_variants
      rw [if_neg (by omega)]
      have hmapM : ∀ l : List (Nat × StyleParams),
          l.mapM (variantStep CATEGORIES MAPS TEMPLATES parsed category) =
            Except.ok (l.map (fun ip =>
              { name := mkVariantName ip.1 ip.2
                style_params := ip.2
                skeleton := assemble_with_template CATEGORIES tpl
                  (apply_category_transformation parsed rules MAPS ip.2)
                  category parsed.semantic_weights })) := by
        intro l
        induction l with
        | nil => rfl
        | cons a l2 ih =>
          rw [List.mapM_cons, ih,
            variantStep_ok CATEGORIES MAPS TEMPLATES parsed category rules tpl
              hr ht a]
          rfl
      exact hmapM _
    · rw [List.length_map, List.enum_length, List.length_take]
      have hlen : param_sets.length = 5 := rfl
      omega

/-! ### Concrete sample data, counterexamples and witnesses -/

def exRulesMascot : CategoryRules :=
  { description := "Cartoon characters, bright colors, dynamic energy"
    visual_dna := ["cartoon character", "bold outlines"]
    ideal_subjects := ["animal", "human"]
    compatible_moods := ["playful", "excited"]
    trigger_keywords := ["cartoon", "mascot"]
    subject_rules := [("animal", "cartoon animal character with bold outlines")]
    action_rules := [("high", "dynamic leaping pose with motion lines")]
    setting_rules := [("indoor_specific", "simplified flat background")]
    color_rules := [("red", "bright primary red")]
    mandatory_markers := ["cereal box art"]
    negative_prompts := ["photorealistic", "muted colors"] }

def exRulesKid : CategoryRules :=
  { description := "Neon explosion, maximum density, extreme angles"
    visual_dna := ["neon colors", "extreme angles"]
    ideal_subjects := ["animal"]
    compatible_moods := ["excited"]
    trigger_keywords := ["neon"]
    negative_prompts := ["minimalist", "calm"] }

def exCats : Categories :=
  [("mascot_theater", exRulesMascot), ("kid_chaos", exRulesKid)]

def exParsed : ParsedComponents :=
  { subject := { type := some "animal", attributes := ["energetic"] }
    action := { verb := some "leaping", energy_level := some "high" }
    setting := { type := some "indoor_specific", location := some "kitchen" }
    objects := ["spoon"]
    colors := ["red"]
    mood := { emotion := some "excited" }
    semantic_weights :=
      [("subject", 70), ("action", 60), ("setting", 40),
       ("colors", 20), ("mood", 35)] }

def exParsedNoEnergy : ParsedComponents :=
  { exParsed with action := { verb := some "standing" } }

def exTemplate : Template :=
  { emphasis_order := ["subject", "action", "setting", "colors", "effects"] }

def exTemplates : Templates :=
  [("mascot_theater", exTemplate), ("kid_chaos", exTemplate)]

def exTransformed : TransformedComponents :=
  { subject := "cartoon animal character with bold outlines"
    action := "dynamic leaping pose with motion lines"
    setting := "simplified flat background"
    colors := "bright primary red"
    effects := "neon colors, extreme angles"
    style_markers := ["neon colors", "extreme angles"]
    typography := none }

def exSkeleton : Skeleton :=
  assemble_with_template exCats exTemplate exTransformed "kid_chaos"
    exParsed.semantic_weights

/-- C1 witness: the decomposition evaluated on a concrete parsed input
and category entry. -/
theorem C1_witness :
    exRulesMascot.trigger_keywords.Nodup ∧
    (scoreCategory exParsed "mascot_theater" exRulesMascot).1 =
      (match exParsed.subject.type with
       | some t => if t ∈ exRulesMascot.ideal_subjects then 3 else 0
       | none => 0)
      + (match exParsed.mood.emotion with
         | some m => if m ∈ exRulesMascot.compatible_moods then 2 else 0
         | none => 0)
      + (if (("mascot_theater" = "kid_chaos" ∨
              "mascot_theater" = "mascot_theater") ∧
              (exParsed.action.energy_level.getD "medium" = "high" ∨
               exParsed.action.energy_level.getD "medium" = "extreme"))
            ∨ (("mascot_theater" = "health_halo" ∨
                "mascot_theater" = "premium_disruptor") ∧
               exParsed.action.energy_level.getD "medium" = "low")
          then 2 else 0)
      + exRulesMascot.trigger_keywords.dedup.countP
          (fun k => substrB k (pyLower exParsed.render)) :=
  ⟨by decide, C1_score_decomposition exParsed "mascot_theater" exRulesMascot
    (by decide)⟩

/-- C10 witness: a parsed input without an energy level evaluated at a
concrete category entry. -/
theorem C10_witness :
    exParsedNoEnergy.action.energy_level = none ∧
    (exParsedNoEnergy.action.energy_level.getD "medium" = "medium" ∧
     (scoreCategory exParsedNoEnergy "kid_chaos" exRulesKid).1 =
       (match exParsedNoEnergy.subject.type with
        | some t => if t ∈ exRulesKid.ideal_subjects then 3 else 0
        | none => 0)
       + (match exParsedNoEnergy.mood.emotion with
          | some m => if m ∈ exRulesKid.compatible_moods then 2 else 0
          | none => 0)
       + exRulesKid.trigger_keywords.countP
           (fun k => substrB k (pyLower exParsedNoEnergy.render))) :=
  ⟨rfl, C10_absent_energy_no_bonus exParsedNoEnergy "kid_chaos" exRulesKid rfl⟩

/-- C3 witness: the ranking properties instantiated on a concrete
two-category store. -/
theorem C3_witness :
    exCats ≠ [] ∧
    (∃ top rest,
      rankedList exCats exParsed = top :: rest ∧
      suggest_category exCats exParsed =
        some { primary_suggestion := top.1
               alternatives := (rest.take 2).map (fun c => c.1)
               scores := (scoredList exCats exParsed).map (fun c => (c.1, c.2.1))
               reasoning :=
                 if top.2.2.isEmpty then "General compatibility"
                 else String.intercalate "; " top.2.2 } ∧
      (rankedList exCats exParsed).Pairwise (fun a b => b.2.1 ≤ a.2.1) ∧
      (rankedIdx exCats exParsed).map Prod.snd = rankedList exCats exParsed ∧
      (rankedIdx exCats exParsed).Pairwise
        (fun a b => b.2.2.1 ≤ a.2.2.1 ∧ (a.2.2.1 ≤ b.2.2.1 → a.1 < b.1)) ∧
      suggest_category exCats exParsed = suggest_category exCats exParsed) :=
  ⟨by decide, C3_ranking exCats exParsed (by decide)⟩

/-- C2 witness: the banding instantiated at a concrete weight table and
the component of weight 70. -/
theorem C2_witness :
    ("subject", (70 : Int)) ∈ exParsed.semantic_weights ∧
    ((("subject", emphasisBand 70) ∈ buildEmphasis exParsed.semantic_weights)
    ∧ (60 < (70 : Int) → emphasisBand 70 = 1.3)
    ∧ (40 < (70 : Int) → (70 : Int) ≤ 60 → emphasisBand 70 = 1.15)
    ∧ (20 < (70 : Int) → (70 : Int) ≤ 40 → emphasisBand 70 = 1.0)
    ∧ ((70 : Int) ≤ 20 → emphasisBand 70 = 0.85)
    ∧ emphasisBand 60 = 1.15
    ∧ emphasisBand 40 = 1.0
    ∧ (∀ (CATEGORIES : Categories) (TEMPLATES : Templates)
        (t : TransformedComponents) (cat : String) (tpl : Template),
        lookupA TEMPLATES cat = some tpl →
        build_prompt_skeleton CATEGORIES TEMPLATES t cat
            exParsed.semantic_weights =
          some (assemble_with_template CATEGORIES tpl t cat
            exParsed.semantic_weights)
        ∧ (assemble_with_template CATEGORIES tpl t cat
            exParsed.semantic_weights).emphasis =
            buildEmphasis exParsed.semantic_weights)) :=
  ⟨by decide, C2_emphasis_banding exParsed.semantic_weights "subject" 70
    (by decide)⟩

/-- C9 witness: the emphasis key set and value range instantiated on a
concrete assembly whose weights include the sectionless component name
mood. -/
theorem C9_witness :
    lookupA exTemplates "kid_chaos" = some exTemplate ∧
    (∃ sk, build_prompt_skeleton exCats exTemplates exTransformed "kid_chaos"
        exParsed.semantic_weights = some sk
    ∧ sk.emphasis.map Prod.fst = exParsed.semantic_weights.map Prod.fst
    ∧ ∀ pr ∈ sk.emphasis,
        pr.2 = 0.85 ∨ pr.2 = 1.0 ∨ pr.2 = 1.15 ∨ pr.2 = 1.3) :=
  ⟨by decide, C9_emphasis_keys_and_range exCats exTemplates exTransformed
    "kid_chaos" exParsed.semantic_weights exTemplate (by decide)⟩

/-- C8 counterexample: a concrete assembly returns a skeleton whose
metadata has no user_modifications entry at all, not an empty list. -/
theorem C8_counterexample :
    build_prompt_skeleton exCats exTemplates exTransformed "kid_chaos"
        exParsed.semantic_weights =
      some (assemble_with_template exCats exTemplate exTransformed "kid_chaos"
        exParsed.semantic_weights)
    ∧ (assemble_with_template exCats exTemplate exTransformed "kid_chaos"
        exParsed.semantic_weights).metadata.user_modifications = none
    ∧ (assemble_with_template exCats exTemplate exTransformed "kid_chaos"
        exParsed.semantic_weights).metadata.user_modifications ≠ some [] := by
  refine ⟨rfl, rfl, by decide⟩

/-- C8 witness: the amended property instantiated on the same concrete
assembly. -/
theorem C8_witness :
    lookupA exTemplates "kid_chaos" = some exTemplate ∧
    (∃ sk, build_prompt_skeleton exCats exTemplates exTransformed "kid_chaos"
        exParsed.semantic_weights = some sk
    ∧ sk.metadata.user_modifications = none
    ∧ ∀ name v, (lookupA sk.sections name).isSome →
        (refine_component sk name v).1.metadata.user_modifications =
          some [name]) :=
  ⟨by decide, C8_user_modifications_created_on_first_refine exCats exTemplates
    exTransformed "kid_chaos" exParsed.semantic_weights exTemplate (by decide)⟩

/-- C4 counterexample: the unknown-category error of the transformation
tool names the offending id but does not contain any of the valid
category ids, refuting the claim that the payload includes them. -/
theorem C4_counterexample :
    apply_transformations exCats [] {} "underwater_disco" none =
      .error "Unknown category: underwater_disco"
    ∧ substrB "mascot_theater" "Unknown category: underwater_disco" = false
    ∧ substrB "kid_chaos" "Unknown category: underwater_disco" = false := by
  refine ⟨rfl, by decide, by decide⟩

/-- C4 witness: the amended unknown-category behaviour at a concrete
unknown id. -/
theorem C4_witness :
    lookupA exCats "underwater_disco" = none ∧
    apply_transformations exCats [] {} "underwater_disco" none =
      .error ("Unknown category: " ++ "underwater_disco") :=
  ⟨by decide, C4_unknown_category_error exCats [] {} "underwater_disco" none
    (by decide)⟩

/-- C5 witness: refining an unknown component of a concrete skeleton. -/
theorem C5_witness :
    lookupA exSkeleton.sections "mood" = none ∧
    refine_component exSkeleton "mood" "brand new text" =
      (exSkeleton, some ("Unknown component: " ++ "mood" ++ ". Available: " ++
        pyStrList (exSkeleton.sections.map (fun p => p.1)))) :=
  ⟨by decide, C5_refine_unknown_component exSkeleton "mood" "brand new text"
    (by decide)⟩

/-- C6 witness: refining the subject section of a concrete skeleton. -/
theorem C6_witness :
    (lookupA exSkeleton.sections "subject").isSome ∧
    ((refine_component exSkeleton "subject" "a new subject").2 = none
    ∧ lookupA (refine_component exSkeleton "subject" "a new subject").1.sections
        "subject" = some "a new subject"
    ∧ (∀ k, k ≠ "subject" →
        lookupA (refine_component exSkeleton "subject" "a new subject").1.sections
          k = lookupA exSkeleton.sections k)
    ∧ (refine_component exSkeleton "subject" "a new subject").1.sections.map
        (fun p => p.1) = exSkeleton.sections.map (fun p => p.1)
    ∧ (refine_component exSkeleton "subject" "a new subject").1.metadata.user_modifications =
        some (exSkeleton.metadata.user_modifications.getD [] ++ ["subject"])
    ∧ (refine_component exSkeleton "subject" "a new subject").1.metadata.estimated_tokens =
        (((refine_component exSkeleton "subject" "a new subject").1.sections).map
          (fun p => p.2.length)).sum / 4
    ∧ (refine_component exSkeleton "subject" "a new subject").1.emphasis =
        exSkeleton.emphasis
    ∧ (refine_component exSkeleton "subject" "a new subject").1.template =
        exSkeleton.template) :=
  ⟨by decide, C6_refine_success exSkeleton "subject" "a new subject" (by decide)⟩

/-- C7 witness: three variants over the concrete kid_chaos store. -/
theorem C7_witness :
    lookupA exCats "kid_chaos" = some exRulesKid ∧
    lookupA exTemplates "kid_chaos" = some exTemplate ∧
    (1 : Int) ≤ 3 ∧ (3 : Int) ≤ 5 ∧
    ((∀ c : Int, (c < 1 ∨ c > 5) →
      generate_variants exCats [] exTemplates exParsed "kid_chaos" c =
        .error "Count must be between 1 and 5")
    ∧ ∃ vs, generate_variants exCats [] exTemplates exParsed "kid_chaos" 3 =
        .ok vs
      ∧ vs = (param_sets.take (3 : Int).toNat).enum.map (fun ip =>
          { name := mkVariantName ip.1 ip.2
            style_params := ip.2
            skeleton := assemble_with_template exCats exTemplate
              (apply_category_transformation exParsed exRulesKid [] ip.2)
              "kid_chaos" exParsed.semantic_weights })
      ∧ vs.length = (3 : Int).toNat) :=
  ⟨by decide, by decide, by decide, by decide,
    C7_variants exCats [] exTemplates exParsed "kid_chaos" 3 exRulesKid
      exTemplate (by decide) (by decide) (by decide) (by decide)⟩

end CerealBox
